import Mathlib

/-!
Verification of `src/tauri/src/app/runner.rs` (tauri runtime bridge):
content resolution, port allocation, the webview command dispatcher with
its splash-screen state, and error surfacing.

The embedding follows the Rust source closely:
* `Content` embeds `web_view::Content<String>`.
* Strings are Lean `String`s; Rust `str::contains`, `str::starts_with` and
  `str::replace("'", "\\'")` are embedded as executable functions on the
  underlying character lists.
* The invoke-handler closure of `build_webview` is embedded as `dispatch`,
  a pure function from the captured state (`initialized_splashscreen`),
  the captured configuration (`has_splashscreen`, `content_clone`) and the
  inbound message to an updated state plus the observable effects
  (`run_setup` notifications, calls to the core and application handlers,
  evaluated scripts).  A `none` result marks the only potential panic site,
  the `expect` on `handled_by_app`.
* External collaborators absent from the source tree
  (`crate::api::tcp::{get_available_port, port_is_available}`, the
  filesystem, the configuration) are passed in as explicit parameters.
-/

namespace Tauri

/-- Embeds `web_view::Content<String>`. -/
inductive Content where
  | html : String → Content
  | url : String → Content
deriving Repr, DecidableEq

/-- Rust `str::starts_with`, on the underlying character list. -/
def strStartsWith (s p : String) : Bool :=
  p.data.isPrefixOf s.data

/-- Occurrence of `pat` as a contiguous sublist, scanning left to right. -/
def subOccurs (pat : List Char) : List Char → Bool
  | [] => pat.isPrefixOf []
  | c :: rest => pat.isPrefixOf (c :: rest) || subOccurs pat rest

/-- Rust `str::contains` (substring containment). -/
def strContains (s pat : String) : Bool :=
  subOccurs pat.data s.data

/-- One step of Rust `.replace("'", "\\'")`: each quote becomes backslash-quote. -/
def escapeQuotesList : List Char → List Char
  | [] => []
  | c :: rest =>
    if c = '\'' then '\\' :: '\'' :: escapeQuotesList rest
    else c :: escapeQuotesList rest

/-- Embeds `s.replace("'", "\\'")` from the source. -/
def escapeQuotes (s : String) : String :=
  ⟨escapeQuotesList s.data⟩

/-- The reserved literal payload for the init message (runner.rs line 212). -/
def initMsg : String := "\x7b\"cmd\":\"__initialized\"\x7d"

/-- The reserved literal payload for closing the splash screen (runner.rs line 220). -/
def closeSplashMsg : String := "\x7b\"cmd\":\"closeSplashscreen\"\x7d"

/-- Embeds `get_api_error_message` (runner.rs lines 277-283): the command text
is quote-escaped, the handler error message is inserted verbatim. -/
def get_api_error_message (arg : String) (handler_error_message : String) : String :=
  "console.error('failed to match a command for " ++ escapeQuotes arg ++ ", "
    ++ handler_error_message ++ "')"

/-- The two external command handlers the dispatcher consults:
`crate::endpoints::handle` and `application.run_invoke_handler`. -/
structure DispatchEnv where
  coreHandle : String → Except String Unit
  appHandle : String → Except String Bool

/-- Observable outcome of one invoke-handler invocation: the updated
`initialized_splashscreen` flag and the recorded effects. -/
structure DispatchResult where
  state : Bool
  setupCalls : List String
  coreCalls : List String
  appCalls : List String
  evals : List String
deriving Repr, DecidableEq

/-- Embeds Rust `Result::expect` on `handled_by_app`: succeeds exactly on `Ok`. -/
def expectOk (r : Except String Bool) : Option Bool :=
  match r with
  | .ok b => some b
  | .error _ => none

/-- The fallback chain of the invoke handler (runner.rs lines 227-249) for a
non-reserved message: core handler first; on an "unknown variant" failure the
application handler; surfaced errors become a `console.error` script.
`none` is the panic of the `expect` at line 235. -/
def dispatchFallback (env : DispatchEnv) (st : Bool) (arg : String) :
    Option DispatchResult :=
  match env.coreHandle arg with
  | .ok _ => some ⟨st, [], [arg], [], []⟩
  | .error coreErr =>
    if strContains coreErr "unknown variant" then
      match env.appHandle arg with
      | .error e => some ⟨st, [], [arg], [arg],
          [get_api_error_message arg (escapeQuotes e)]⟩
      | .ok _ =>
        match expectOk (env.appHandle arg) with
        | none => none
        | some handled =>
          if handled then some ⟨st, [], [arg], [arg], []⟩
          else some ⟨st, [], [arg], [arg], [get_api_error_message arg coreErr]⟩
    else
      some ⟨st, [], [arg], [], [get_api_error_message arg coreErr]⟩

/-- The navigation target used by `closeSplashscreen` (runner.rs lines 221-224). -/
def contentHref : Content → String
  | .html h => h
  | .url u => u

/-- Embeds one invocation of the invoke-handler closure (runner.rs lines
211-253). `hs` is `has_splashscreen`, `st` the captured
`initialized_splashscreen` flag, `c` the `content_clone`. -/
def dispatch (env : DispatchEnv) (hs : Bool) (c : Content) (st : Bool)
    (arg : String) : Option DispatchResult :=
  if arg = initMsg then
    if hs && !st then some ⟨true, ["splashscreen"], [], [], []⟩
    else some ⟨st, ["window-1"], [], [], []⟩
  else if arg = closeSplashMsg then
    some ⟨st, [], [], [], ["window.location.href = \"" ++ contentHref c ++ "\""]⟩
  else
    dispatchFallback env st arg

/-- Occurrence count of a string in a list. -/
def countStr (a : String) : List String → Nat
  | [] => 0
  | b :: rest => (if b = a then 1 else 0) + countStr a rest

/-- Total "splashscreen" notifications over a list of dispatch outcomes. -/
def splashCount : List DispatchResult → Nat
  | [] => 0
  | r :: rest => countStr "splashscreen" r.setupCalls + splashCount rest

/-- Runs the dispatcher over a sequence of inbound messages, threading the
`initialized_splashscreen` flag exactly as the closure does; stops if a
dispatch would panic. -/
def runSeq (env : DispatchEnv) (hs : Bool) (c : Content) :
    Bool → List String → Bool × List DispatchResult
  | st, [] => (st, [])
  | st, a :: rest =>
    match dispatch env hs c st a with
    | none => (st, [])
    | some r =>
      ((runSeq env hs c r.state rest).1, r :: (runSeq env hs c r.state rest).2)

/-- Embeds `tauri_api::config::Port`: the port policy of the embedded server. -/
inductive Port where
  | random : Port
  | value : Nat → Port
deriving Repr, DecidableEq

/-- Embeds `setup_port` (runner.rs lines 126-139).  The host's TCP state is
abstracted by the two probes of `crate::api::tcp` (not in the source tree,
modelled from the spec): `gap` is the result of `get_available_port()` and
`pia` is `port_is_available`. -/
def setup_port (policy : Port) (gap : Option Nat) (pia : Nat → Bool) :
    Except String (String × Bool) :=
  match policy with
  | .random =>
    match gap with
    | some available_port => .ok (toString available_port, true)
    | none => .ok ("0", false)
  | .value port => .ok (toString port, pia port)

/-- Embeds `setup_server_url` (runner.rs lines 142-150): format `host:port`,
then prepend `http://` when the result does not start with `"http"`. -/
def setup_server_url (host : String) (port : String) : Except String String :=
  let url := host ++ ":" ++ port
  .ok (if strStartsWith url "http" then url else "http://" ++ url)

/-- Embeds `setup_content` under `cfg(embedded_server)` (runner.rs lines
105-116).  The `expect` that panics on an invalid port is modelled as the
fatal `.error` case, carrying the panic message. -/
def setup_content_embedded (host : String) (gap : Option Nat)
    (pia : Nat → Bool) (policy : Port) : Except String Content :=
  match setup_port policy gap pia with
  | .error e => .error e
  | .ok (port, valid) =>
    match (if valid then setup_server_url host port else .error "invalid port") with
    | .ok u => .ok (.url u)
    | .error e => .error ("Unable to setup URL: " ++ e)

/-- The fatal message of the dev-mode missing-entry-document panic
(runner.rs lines 95-98). -/
def devMissingMsg (dev_dir : String) : String :=
  "Couldn't find 'index.tauri.html' inside " ++ dev_dir
    ++ "; did you forget to run 'tauri dev'?"

/-- Embeds Rust `Path::join` semantics restricted to Unix paths: joining an
absolute component (starting with `/`) replaces the base path entirely. -/
def pathJoin (base child : String) : String :=
  if strStartsWith child "/" then child else base ++ "/" ++ child

/-- Embeds `setup_content` under `cfg(dev)` (runner.rs lines 63-102), with
the filesystem abstracted as a partial map from path to contents (`none`
models a missing or unreadable file).  The Windows-only loopback exemption
block is environment setup outside the spec's scope and is omitted. -/
def setup_content_dev (dev_path : String) (fs : String → Option String) :
    Except String Content :=
  if strStartsWith dev_path "http" then
    .ok (.url dev_path)
  else
    match fs (pathJoin dev_path "index.tauri.html") with
    | none => .error (devMissingMsg dev_path)
    | some contents => .ok (.html contents)

/-- Effects of `run` (runner.rs lines 18-60) that follow content resolution:
whether `build_webview` ran and whether the embedded server thread was
spawned. -/
structure RunEffects where
  webviewBuilt : Bool
  serverSpawned : Bool
deriving Repr, DecidableEq

/-- Embeds the sequencing of `run` under `cfg(embedded_server)`: content is
resolved first; a fatal resolution means neither the webview nor the server
thread is created. -/
def run_embedded (host : String) (gap : Option Nat) (pia : Nat → Bool)
    (policy : Port) : RunEffects × Option String :=
  match setup_content_embedded host gap pia policy with
  | .error e => (⟨false, false⟩, some e)
  | .ok _ => (⟨true, true⟩, none)

/-- Embeds the sequencing of `run` under `cfg(dev)`: content is resolved
first; a fatal resolution means the webview is never built (the dev build
has no embedded server). -/
def run_dev (dev_path : String) (fs : String → Option String) :
    Bool × Option String :=
  match setup_content_dev dev_path fs with
  | .error e => (false, some e)
  | .ok _ => (true, none)

/-- The value of the `TAURI_DIR` environment variable with its `"../dist"`
default (runner.rs line 264). -/
def tauriDirOf (envVar : Option String) : String :=
  envVar.getD "../dist"

/-- The path the splash bootstrap is read from (runner.rs lines 264-266):
`Path::new(&env_var).join("/tauri.js")`. -/
def bootstrapScriptPath (envVar : Option String) : String :=
  pathJoin (tauriDirOf envVar) "/tauri.js"

/-- A single quote not preceded by a backslash, anywhere in the char list:
such a quote terminates a single-quoted script literal early. -/
def hasUnescapedQuote : List Char → Bool
  | [] => false
  | '\\' :: _ :: rest => hasUnescapedQuote rest
  | '\'' :: _ => true
  | _ :: rest => hasUnescapedQuote rest

/-- The interior of the injected `console.error('...')` script: everything
strictly between the opening `('` and the closing `')`. -/
def scriptBody (script : String) : List Char :=
  ((script.data.drop 15).dropLast).dropLast

end Tauri

namespace Tauri

example : dispatch ⟨fun _ => .ok (), fun _ => .ok true⟩ true (.url "u") false initMsg
    = some ⟨true, ["splashscreen"], [], [], []⟩ := by decide

example : dispatch ⟨fun _ => .ok (), fun _ => .ok true⟩ true (.url "u") true initMsg
    = some ⟨true, ["window-1"], [], [], []⟩ := by decide

example : dispatch ⟨fun _ => .error "x unknown variant y", fun _ => .ok false⟩
    true (.url "u") false "ping"
    = some ⟨false, [], ["ping"], ["ping"],
        ["console.error('failed to match a command for ping, x unknown variant y')"]⟩ := by
  decide

example : get_api_error_message "it's" "e"
    = "console.error('failed to match a command for it\\'s, e')" := by decide

example : setup_server_url "0.0.0.0" "8080" = .ok "http://0.0.0.0:8080" := rfl

example : setup_server_url "httpx" "0" = .ok "httpx:0" := rfl

example : setup_port (.value 7) none (fun _ => false) = .ok ("7", false) := rfl

example : setup_content_embedded "h" none (fun _ => true) .random
    = .error "Unable to setup URL: invalid port" := rfl

example : setup_content_dev "http://localhost:4000" (fun _ => none)
    = .ok (.url "http://localhost:4000") := rfl

example : setup_content_dev "../dist" (fun _ => none)
    = .error (devMissingMsg "../dist") := rfl

example : setup_content_dev "../dist"
    (fun p => if p = "../dist/index.tauri.html" then some "<html/>" else none)
    = .ok (.html "<html/>") := rfl

example : bootstrapScriptPath (some "/custom/dir") = "/tauri.js" := by decide

example : hasUnescapedQuote (scriptBody
    "console.error('failed to match a command for x, oops it's bad')") = true := by decide

example : hasUnescapedQuote (scriptBody
    "console.error('failed to match a command for it\\'s, ok')") = false := by decide

/-- The fallback chain always produces an outcome. -/
lemma dispatchFallback_isSome (env : DispatchEnv) (st : Bool) (arg : String) :
    (dispatchFallback env st arg).isSome = true := by
  cases hco : env.coreHandle arg with
  | ok u => simp [dispatchFallback, hco]
  | error e =>
    cases hc : strContains e "unknown variant" with
    | true =>
      cases hap : env.appHandle arg with
      | error e2 => simp [dispatchFallback, hco, hc, hap]
      | ok b => cases b <;> simp [dispatchFallback, hco, hc, hap, expectOk]
    | false => simp [dispatchFallback, hco, hc]

/-- On the fallback chain the splash flag is untouched and `run_setup` is
never notified. -/
lemma dispatchFallback_setup (env : DispatchEnv) (st : Bool) (arg : String)
    (r : DispatchResult) (h : dispatchFallback env st arg = some r) :
    r.setupCalls = [] ∧ r.state = st := by
  cases hco : env.coreHandle arg with
  | ok u =>
    simp only [dispatchFallback, hco, Option.some.injEq] at h
    cases h
    exact ⟨rfl, rfl⟩
  | error e =>
    cases hc : strContains e "unknown variant" with
    | true =>
      cases hap : env.appHandle arg with
      | error e2 =>
        simp only [dispatchFallback, hco, hc, if_true, hap, Option.some.injEq] at h
        cases h
        exact ⟨rfl, rfl⟩
      | ok b =>
        cases b <;>
          simp only [dispatchFallback, hco, hc, if_true, hap, expectOk,
            Bool.false_eq_true, if_false, Option.some.injEq, reduceIte] at h <;>
          (cases h; exact ⟨rfl, rfl⟩)
    | false =>
      simp only [dispatchFallback, hco, hc, Bool.false_eq_true, if_false,
        Option.some.injEq, reduceIte] at h
      cases h
      exact ⟨rfl, rfl⟩

/-- Any message other than the exact init literal leaves the splash flag
unchanged and produces no `run_setup` notification. -/
lemma dispatch_nonInit (env : DispatchEnv) (hs : Bool) (c : Content) (st : Bool)
    (arg : String) (r : DispatchResult) (h1 : arg ≠ initMsg)
    (h : dispatch env hs c st arg = some r) :
    r.setupCalls = [] ∧ r.state = st := by
  unfold dispatch at h
  rw [if_neg h1] at h
  by_cases h2 : arg = closeSplashMsg
  · rw [if_pos h2] at h
    cases h
    exact ⟨rfl, rfl⟩
  · rw [if_neg h2] at h
    exact dispatchFallback_setup env st arg r h

/-- How many further "splashscreen" notifications a state still allows. -/
def splashBudget : Bool → Nat
  | true => 0
  | false => 1

/-- One dispatch step consumes the splash budget it emits. -/
lemma dispatch_splash_bound (env : DispatchEnv) (hs : Bool) (c : Content)
    (st : Bool) (arg : String) (r : DispatchResult)
    (h : dispatch env hs c st arg = some r) :
    countStr "splashscreen" r.setupCalls + splashBudget r.state ≤ splashBudget st := by
  by_cases h1 : arg = initMsg
  · unfold dispatch at h
    rw [if_pos h1] at h
    cases hs <;> cases st <;> simp only [Bool.and_self, Bool.and_true, Bool.and_false,
      Bool.not_true, Bool.not_false, if_true, if_neg, Bool.false_and, Bool.true_and,
      reduceIte] at h <;> (cases h; decide)
  · obtain ⟨hsetup, hst⟩ := dispatch_nonInit env hs c st arg r h1 h
    rw [hsetup, hst]
    simp [countStr]

/-- Over any message sequence the splash notifications stay within budget. -/
lemma runSeq_splash_le (env : DispatchEnv) (hs : Bool) (c : Content)
    (msgs : List String) : ∀ st : Bool,
    splashCount (runSeq env hs c st msgs).2 ≤ splashBudget st := by
  induction msgs with
  | nil => intro st; simp [runSeq, splashCount]
  | cons a rest ih =>
    intro st
    unfold runSeq
    cases hd : dispatch env hs c st a with
    | none => simp [splashCount]
    | some r =>
      simp only [splashCount]
      have hb := dispatch_splash_bound env hs c st a r hd
      have ht := ih r.state
      omega

/-- C10: the `expect` on `handled_by_app` is evaluated only on the branch
where the application-handler result is already `Ok`, so the dispatcher
never aborts there: every dispatch produces an outcome, for any core- or
application-handler behaviour. -/
theorem C10_expect_never_panics (env : DispatchEnv) (hs : Bool) (c : Content)
    (st : Bool) (arg : String) : (dispatch env hs c st arg).isSome = true := by
  unfold dispatch
  by_cases h1 : arg = initMsg
  · rw [if_pos h1]
    cases hs && !st <;> simp
  · rw [if_neg h1]
    by_cases h2 : arg = closeSplashMsg
    · rw [if_pos h2]; rfl
    · rw [if_neg h2]
      exact dispatchFallback_isSome env st arg

/-- C1: the dispatcher intercepts the exact payload `{"cmd":"__initialized"}`:
with a splash screen, the first occurrence marks the splash initialized and
notifies source "splashscreen"; every later occurrence, and every occurrence
without a splash screen, notifies "window-1"; any payload differing from the
literal produces no notification and leaves the flag unchanged; over any
message sequence starting from the fresh state the "splashscreen"
notification fires at most once. -/
theorem C1_initialized_interception (env : DispatchEnv) (c : Content) :
    (∀ st : Bool,
      dispatch env true c false initMsg = some ⟨true, ["splashscreen"], [], [], []⟩
      ∧ dispatch env true c true initMsg = some ⟨true, ["window-1"], [], [], []⟩
      ∧ dispatch env false c st initMsg = some ⟨st, ["window-1"], [], [], []⟩)
    ∧ (∀ (hs st : Bool) (arg : String) (r : DispatchResult),
        arg ≠ initMsg → dispatch env hs c st arg = some r →
        r.setupCalls = [] ∧ r.state = st)
    ∧ (∀ (hs : Bool) (msgs : List String),
        splashCount (runSeq env hs c false msgs).2 ≤ 1) := by
  refine ⟨?_, ?_, ?_⟩
  · intro st
    refine ⟨rfl, rfl, ?_⟩
    cases st <;> rfl
  · intro hs st arg r h1 h
    exact dispatch_nonInit env hs c st arg r h1 h
  · intro hs msgs
    exact runSeq_splash_le env hs c msgs false

/-- A trivially succeeding pair of handlers, used to instantiate theorems. -/
def okEnv : DispatchEnv := ⟨fun _ => .ok (), fun _ => .ok true⟩

/-- Witness for C1: concrete first/second init messages and a payload with
trailing whitespace that is not intercepted. -/
theorem C1_initialized_interception_witness :
    dispatch okEnv true (.url "u") false initMsg
      = some ⟨true, ["splashscreen"], [], [], []⟩
    ∧ (DispatchResult.setupCalls ⟨false, [], [initMsg ++ " "], [], []⟩ = []
        ∧ DispatchResult.state ⟨false, [], [initMsg ++ " "], [], []⟩ = false)
    ∧ splashCount (runSeq okEnv true (.url "u") false [initMsg, initMsg]).2 ≤ 1 :=
  ⟨((C1_initialized_interception okEnv (.url "u")).1 false).1,
   (C1_initialized_interception okEnv (.url "u")).2.1 true false (initMsg ++ " ")
      ⟨false, [], [initMsg ++ " "], [], []⟩ (by decide) (by decide),
   (C1_initialized_interception okEnv (.url "u")).2.2 true [initMsg, initMsg]⟩

/-- C7: `setup_port` returns the available ephemeral port with `true` under
the random policy when one exists, the sentinel `("0", false)` when none
does, and under a fixed policy returns the fixed port's text unchanged
paired with exactly the availability probe's verdict. -/
theorem C7_setup_port_policy (gap : Option Nat) (pia : Nat → Bool) (n m : Nat) :
    setup_port .random (some m) pia = .ok (toString m, true)
    ∧ setup_port .random none pia = .ok ("0", false)
    ∧ setup_port (.value n) gap pia = .ok (toString n, pia n) :=
  ⟨rfl, rfl, rfl⟩

/-- C6 (code evaluated at the failing input): `Path::new(&env_var)
.join("/tauri.js")` joins an absolute path, which replaces the base, so the
bootstrap script path is `/tauri.js` for every value of `TAURI_DIR` — it
never varies with the configured runtime directory. -/
theorem C6_bootstrap_path_constant :
    bootstrapScriptPath (some "/custom/dir") = "/tauri.js"
    ∧ bootstrapScriptPath none = "/tauri.js"
    ∧ tauriDirOf (some "/custom/dir") = "/custom/dir"
    ∧ (∀ envVar : Option String, bootstrapScriptPath envVar = "/tauri.js") := by
  refine ⟨by decide, by decide, by decide, ?_⟩
  intro envVar
  have h : strStartsWith "/tauri.js" "/" = true := by decide
  simp [bootstrapScriptPath, pathJoin, h]

/-- A non-reserved message goes to the fallback chain. -/
lemma dispatch_eq_fallback (env : DispatchEnv) (hs : Bool) (c : Content)
    (st : Bool) (arg : String) (h1 : arg ≠ initMsg) (h2 : arg ≠ closeSplashMsg) :
    dispatch env hs c st arg = dispatchFallback env st arg := by
  unfold dispatch
  rw [if_neg h1, if_neg h2]

/-- Fallback outcome when the core handler succeeds. -/
lemma dispatchFallback_core_ok (env : DispatchEnv) (st : Bool) (arg : String)
    (hco : env.coreHandle arg = .ok ()) :
    dispatchFallback env st arg = some ⟨st, [], [arg], [], []⟩ := by
  simp [dispatchFallback, hco]

/-- Fallback outcome when the core handler fails without the
"unknown variant" marker: terminal, the core error is surfaced. -/
lemma dispatchFallback_core_err (env : DispatchEnv) (st : Bool) (arg e : String)
    (hco : env.coreHandle arg = .error e)
    (hc : strContains e "unknown variant" = false) :
    dispatchFallback env st arg
      = some ⟨st, [], [arg], [], [get_api_error_message arg e]⟩ := by
  simp [dispatchFallback, hco, hc]

/-- Fallback outcome when the application handler errors: its error is
surfaced, quote-escaped. -/
lemma dispatchFallback_app_err (env : DispatchEnv) (st : Bool) (arg e ae : String)
    (hco : env.coreHandle arg = .error e)
    (hc : strContains e "unknown variant" = true)
    (hap : env.appHandle arg = .error ae) :
    dispatchFallback env st arg
      = some ⟨st, [], [arg], [arg], [get_api_error_message arg (escapeQuotes ae)]⟩ := by
  simp [dispatchFallback, hco, hc, hap]

/-- Fallback outcome when the application handler returns a verdict:
"handled" surfaces nothing, "not handled" surfaces the original core error. -/
lemma dispatchFallback_app_ok (env : DispatchEnv) (st : Bool) (arg e : String)
    (b : Bool) (hco : env.coreHandle arg = .error e)
    (hc : strContains e "unknown variant" = true)
    (hap : env.appHandle arg = .ok b) :
    dispatchFallback env st arg
      = some ⟨st, [], [arg], [arg],
          if b then [] else [get_api_error_message arg e]⟩ := by
  cases b <;> simp [dispatchFallback, hco, hc, hap, expectOk]

/-- C2: for a non-reserved message the application handler is invoked if and
only if the core handler fails with an error containing "unknown variant";
core success never reaches the application handler; a core failure without
the marker is terminal, the application handler is not attempted, and that
core error is the one surfaced. -/
theorem C2_fallback_gating (env : DispatchEnv) (hs : Bool) (c : Content)
    (st : Bool) (arg : String) (h1 : arg ≠ initMsg) (h2 : arg ≠ closeSplashMsg) :
    (env.coreHandle arg = .ok () →
      dispatch env hs c st arg = some ⟨st, [], [arg], [], []⟩)
    ∧ (∀ e : String, env.coreHandle arg = .error e →
        strContains e "unknown variant" = false →
        dispatch env hs c st arg
          = some ⟨st, [], [arg], [], [get_api_error_message arg e]⟩)
    ∧ (∀ e : String, env.coreHandle arg = .error e →
        strContains e "unknown variant" = true →
        ∃ r : DispatchResult,
          dispatch env hs c st arg = some r ∧ r.appCalls = [arg]) := by
  rw [dispatch_eq_fallback env hs c st arg h1 h2]
  refine ⟨?_, ?_, ?_⟩
  · intro hco
    exact dispatchFallback_core_ok env st arg hco
  · intro e hco hc
    exact dispatchFallback_core_err env st arg e hco hc
  · intro e hco hc
    cases hap : env.appHandle arg with
    | error ae =>
      exact ⟨⟨st, [], [arg], [arg], [get_api_error_message arg (escapeQuotes ae)]⟩,
        dispatchFallback_app_err env st arg e ae hco hc hap, rfl⟩
    | ok b =>
      exact ⟨⟨st, [], [arg], [arg], if b then [] else [get_api_error_message arg e]⟩,
        dispatchFallback_app_ok env st arg e b hco hc hap, rfl⟩

/-- Handlers for the C2 witness: one recognized command, everything else an
unrecognized-command failure. -/
def gateEnv : DispatchEnv :=
  ⟨fun a => if a = "known" then .ok () else .error "unknown variant x",
   fun _ => .ok true⟩

/-- Witness for C2: a core-recognized command never reaches the application
handler; an unrecognized one does. -/
theorem C2_fallback_gating_witness :
    dispatch gateEnv false (.url "u") false "known"
      = some ⟨false, [], ["known"], [], []⟩
    ∧ (∃ r : DispatchResult,
        dispatch gateEnv false (.url "u") false "other" = some r
        ∧ r.appCalls = ["other"]) :=
  ⟨(C2_fallback_gating gateEnv false (.url "u") false "known"
      (by decide) (by decide)).1 rfl,
   (C2_fallback_gating gateEnv false (.url "u") false "other"
      (by decide) (by decide)).2.2 "unknown variant x" rfl (by decide)⟩

/-- C3: when a message reaches the application handler, an application error
is the surfaced diagnostic (quote-escaped); "not handled" surfaces the
original core "unknown variant" error; "handled" surfaces nothing; and a
message handled successfully by the core handler also surfaces nothing. -/
theorem C3_error_selection (env : DispatchEnv) (hs : Bool) (c : Content)
    (st : Bool) (arg : String) (h1 : arg ≠ initMsg) (h2 : arg ≠ closeSplashMsg) :
    (∀ e ae : String, env.coreHandle arg = .error e →
      strContains e "unknown variant" = true → env.appHandle arg = .error ae →
      dispatch env hs c st arg
        = some ⟨st, [], [arg], [arg], [get_api_error_message arg (escapeQuotes ae)]⟩)
    ∧ (∀ e : String, env.coreHandle arg = .error e →
      strContains e "unknown variant" = true → env.appHandle arg = .ok false →
      dispatch env hs c st arg
        = some ⟨st, [], [arg], [arg], [get_api_error_message arg e]⟩)
    ∧ (∀ e : String, env.coreHandle arg = .error e →
      strContains e "unknown variant" = true → env.appHandle arg = .ok true →
      dispatch env hs c st arg = some ⟨st, [], [arg], [arg], []⟩)
    ∧ (env.coreHandle arg = .ok () →
      dispatch env hs c st arg = some ⟨st, [], [arg], [], []⟩) := by
  rw [dispatch_eq_fallback env hs c st arg h1 h2]
  refine ⟨?_, ?_, ?_, ?_⟩
  · intro e ae hco hc hap
    exact dispatchFallback_app_err env st arg e ae hco hc hap
  · intro e hco hc hap
    exact dispatchFallback_app_ok env st arg e false hco hc hap
  · intro e hco hc hap
    exact dispatchFallback_app_ok env st arg e true hco hc hap
  · intro hco
    exact dispatchFallback_core_ok env st arg hco

/-- Handlers for the C3 witness: the core handler never recognizes the
command, the application handler errors with a quoted message. -/
def appErrEnv : DispatchEnv :=
  ⟨fun _ => .error "unknown variant x",
   fun _ => .error "it's broken"⟩

/-- Handlers for the not-handled and handled cases of the C3 witness. -/
def appNoEnv : DispatchEnv :=
  ⟨fun _ => .error "unknown variant x", fun _ => .ok false⟩

/-- Witness for C3: the three application-handler outcomes and a core
success, at concrete inputs. -/
theorem C3_error_selection_witness :
    dispatch appErrEnv false (.url "u") false "cmd"
      = some ⟨false, [], ["cmd"], ["cmd"],
          ["console.error('failed to match a command for cmd, it\\'s broken')"]⟩
    ∧ dispatch appNoEnv false (.url "u") false "cmd"
      = some ⟨false, [], ["cmd"], ["cmd"],
          ["console.error('failed to match a command for cmd, unknown variant x')"]⟩
    ∧ dispatch gateEnv false (.url "u") false "other"
      = some ⟨false, [], ["other"], ["other"], []⟩
    ∧ dispatch gateEnv false (.url "u") false "known"
      = some ⟨false, [], ["known"], [], []⟩ :=
  ⟨(C3_error_selection appErrEnv false (.url "u") false "cmd"
      (by decide) (by decide)).1 "unknown variant x" "it's broken"
      rfl (by decide) rfl,
   (C3_error_selection appNoEnv false (.url "u") false "cmd"
      (by decide) (by decide)).2.1 "unknown variant x" rfl (by decide) rfl,
   (C3_error_selection gateEnv false (.url "u") false "other"
      (by decide) (by decide)).2.2.1 "unknown variant x" rfl (by decide) rfl,
   (C3_error_selection gateEnv false (.url "u") false "known"
      (by decide) (by decide)).2.2.2 rfl⟩

/-- Handlers exhibiting an unescaped quote in a surfaced core error. -/
def coreQuoteEnv : DispatchEnv :=
  ⟨fun _ => .error "oops it's bad", fun _ => .ok true⟩

/-- C5 counterexample: a terminal core-handler error containing a single
quote is surfaced verbatim, so the injected script's string literal is ended
early by an unescaped quote — the claimed escaping of the surfaced error
text does not happen for core-handler errors. -/
theorem C5_counterexample :
    dispatch coreQuoteEnv false (.url "u") false "x"
      = some ⟨false, [], ["x"], [],
          ["console.error('failed to match a command for x, oops it's bad')"]⟩
    ∧ hasUnescapedQuote (scriptBody
        "console.error('failed to match a command for x, oops it's bad')") = true
    ∧ hasUnescapedQuote (escapeQuotesList "oops it's bad".data) = false := by
  exact ⟨by decide, by decide, by decide⟩

/-- C5 amended: every surfaced diagnostic is exactly the script
`console.error('failed to match a command for <cmd>, <error>')`; the command
text is always quote-escaped, and the application-handler error text is
quote-escaped before surfacing, but a surfaced core-handler error text is
inserted verbatim, unescaped. -/
theorem C5_surfaced_script (env : DispatchEnv) (hs : Bool) (c : Content)
    (st : Bool) (arg : String) (h1 : arg ≠ initMsg) (h2 : arg ≠ closeSplashMsg) :
    (∀ a m : String, get_api_error_message a m
      = "console.error('failed to match a command for " ++ escapeQuotes a
          ++ ", " ++ m ++ "')")
    ∧ (∀ e : String, env.coreHandle arg = .error e →
        strContains e "unknown variant" = false →
        dispatch env hs c st arg
          = some ⟨st, [], [arg], [], [get_api_error_message arg e]⟩)
    ∧ (∀ e ae : String, env.coreHandle arg = .error e →
        strContains e "unknown variant" = true → env.appHandle arg = .error ae →
        dispatch env hs c st arg
          = some ⟨st, [], [arg], [arg],
              [get_api_error_message arg (escapeQuotes ae)]⟩)
    ∧ (∀ e : String, env.coreHandle arg = .error e →
        strContains e "unknown variant" = true → env.appHandle arg = .ok false →
        dispatch env hs c st arg
          = some ⟨st, [], [arg], [arg], [get_api_error_message arg e]⟩) := by
  rw [dispatch_eq_fallback env hs c st arg h1 h2]
  refine ⟨fun a m => rfl, ?_, ?_, ?_⟩
  · intro e hco hc
    exact dispatchFallback_core_err env st arg e hco hc
  · intro e ae hco hc hap
    exact dispatchFallback_app_err env st arg e ae hco hc hap
  · intro e hco hc hap
    exact dispatchFallback_app_ok env st arg e false hco hc hap

/-- Witness for the amended C5: the exact scripts at concrete inputs — the
quoted command is escaped, a quoted application error is escaped, a quoted
core error is not. -/
theorem C5_surfaced_script_witness :
    dispatch coreQuoteEnv false (.url "u") false "it's a cmd"
      = some ⟨false, [], ["it's a cmd"], [],
          ["console.error('failed to match a command for it\\'s a cmd, oops it's bad')"]⟩
    ∧ dispatch appErrEnv false (.url "u") false "cmd"
      = some ⟨false, [], ["cmd"], ["cmd"],
          ["console.error('failed to match a command for cmd, it\\'s broken')"]⟩ :=
  ⟨(C5_surfaced_script coreQuoteEnv false (.url "u") false "it's a cmd"
      (by decide) (by decide)).2.1 "oops it's bad" rfl (by decide),
   (C5_surfaced_script appErrEnv false (.url "u") false "cmd"
      (by decide) (by decide)).2.2.1 "unknown variant x" "it's broken"
      rfl (by decide) rfl⟩

/-- Splitting off the trailing operand of a double append. -/
lemma strAppend_assoc (a b c : String) : a ++ b ++ c = a ++ (b ++ c) := by
  apply String.ext
  simp [String.data_append, List.append_assoc]

/-- Anything prefixed with `http://` starts with `"http"`. -/
lemma startsWith_http_of_prepend (s : String) :
    strStartsWith ("http://" ++ s) "http" = true := by
  have h0 : "http://".data = ['h', 't', 't', 'p', ':', '/', '/'] := rfl
  have h1 : ("http://" ++ s).data
      = 'h' :: 't' :: 't' :: 'p' :: ':' :: '/' :: '/' :: s.data := by
    rw [String.data_append, h0]
    rfl
  unfold strStartsWith
  rw [h1]
  rfl

/-- C4 counterexample: with the configured host `"httpx"` and port `"0"`,
`setup_server_url` returns `"httpx:0"`, which starts with neither `http://`
nor `https://` — the code tests `starts_with("http")`, not the presence of a
scheme prefix, so no `http://` is prepended even though `httpx:0` lacks a
scheme. -/
theorem C4_counterexample :
    setup_server_url "httpx" "0" = .ok "httpx:0"
    ∧ strStartsWith "httpx:0" "http://" = false
    ∧ strStartsWith "httpx:0" "https://" = false
    ∧ strStartsWith ("httpx" ++ ":" ++ "0") "http" = true :=
  ⟨rfl, by decide, by decide, by decide⟩

/-- C4 amended: for every host and port string `p`, `setup_server_url`
returns `Ok` of a string that ends in `p`'s text and starts with the four
characters `"http"`; the `http://` prefix is prepended exactly when the
`host:port` string does not itself start with `"http"`. -/
theorem C4_server_url_normalization (host p : String) :
    ∃ res : String, setup_server_url host p = .ok res
      ∧ (∃ a : String, res = a ++ p)
      ∧ strStartsWith res "http" = true
      ∧ (strStartsWith (host ++ ":" ++ p) "http" = true → res = host ++ ":" ++ p)
      ∧ (strStartsWith (host ++ ":" ++ p) "http" = false →
          res = "http://" ++ (host ++ ":" ++ p)) := by
  cases hsw : strStartsWith (host ++ ":" ++ p) "http" with
  | true =>
    refine ⟨host ++ ":" ++ p, ?_, ⟨host ++ ":", rfl⟩, hsw, fun _ => rfl, ?_⟩
    · simp [setup_server_url, hsw]
    · intro hfalse
      exact absurd hfalse (by decide)
  | false =>
    refine ⟨"http://" ++ (host ++ ":" ++ p), ?_, ⟨"http://" ++ (host ++ ":"), ?_⟩,
      startsWith_http_of_prepend (host ++ ":" ++ p), ?_, fun _ => rfl⟩
    · simp [setup_server_url, hsw]
    · exact (strAppend_assoc "http://" (host ++ ":") p).symm
    · intro htrue
      exact absurd htrue (by decide)

/-- Witness for the amended C4: a normal host gets the `http://` prefix. -/
theorem C4_server_url_normalization_witness :
    setup_server_url "0.0.0.0" "65536" = .ok "http://0.0.0.0:65536"
    ∧ strStartsWith "http://0.0.0.0:65536" "http" = true := by
  obtain ⟨res, hok, -, hsw, -, hpre⟩ := C4_server_url_normalization "0.0.0.0" "65536"
  have hres : res = "http://0.0.0.0:65536" := by
    rw [hpre (by decide)]
    decide
  rw [hres] at hok hsw
  exact ⟨hok, hsw⟩

/-- C8: in embedded-server mode an invalid port makes content resolution
fatal before the webview is built or the server thread spawned; a valid
port resolves to `Content.url` of the scheme-normalized `host:port`
address, after which both are created. -/
theorem C8_embedded_resolution (host : String) (gap : Option Nat)
    (pia : Nat → Bool) :
    (∀ n : Nat, pia n = false →
      run_embedded host gap pia (.value n)
        = (⟨false, false⟩, some "Unable to setup URL: invalid port"))
    ∧ (gap = none →
      run_embedded host gap pia .random
        = (⟨false, false⟩, some "Unable to setup URL: invalid port"))
    ∧ (∀ (n : Nat) (u : String), pia n = true →
      setup_server_url host (toString n) = .ok u →
      setup_content_embedded host gap pia (.value n) = .ok (.url u)
      ∧ run_embedded host gap pia (.value n) = (⟨true, true⟩, none))
    ∧ (∀ (m : Nat) (u : String), gap = some m →
      setup_server_url host (toString m) = .ok u →
      setup_content_embedded host gap pia .random = .ok (.url u)
      ∧ run_embedded host gap pia .random = (⟨true, true⟩, none)) := by
  refine ⟨?_, ?_, ?_, ?_⟩
  · intro n hn
    simp [run_embedded, setup_content_embedded, setup_port, hn]
  · intro hgap
    subst hgap
    simp [run_embedded, setup_content_embedded, setup_port]
  · intro n u hn hu
    have h : setup_content_embedded host gap pia (.value n) = .ok (.url u) := by
      simp [setup_content_embedded, setup_port, hn, hu]
    exact ⟨h, by simp [run_embedded, h]⟩
  · intro m u hgap hu
    subst hgap
    have h : setup_content_embedded host (some m) pia .random = .ok (.url u) := by
      simp [setup_content_embedded, setup_port, hu]
    exact ⟨h, by simp [run_embedded, h]⟩

/-- Witness for C8: a bound fixed port is fatal with nothing created; a free
fixed port resolves to the normalized URL with webview and server created. -/
theorem C8_embedded_resolution_witness :
    run_embedded "0.0.0.0" none (fun _ => false) (.value 8000)
      = (⟨false, false⟩, some "Unable to setup URL: invalid port")
    ∧ setup_content_embedded "0.0.0.0" none (fun _ => true) (.value 8000)
      = .ok (.url "http://0.0.0.0:8000")
    ∧ run_embedded "0.0.0.0" none (fun _ => true) (.value 8000)
      = (⟨true, true⟩, none) :=
  ⟨(C8_embedded_resolution "0.0.0.0" none (fun _ => false)).1 8000 rfl,
   ((C8_embedded_resolution "0.0.0.0" none (fun _ => true)).2.2.1 8000
      "http://0.0.0.0:8000" rfl rfl).1,
   ((C8_embedded_resolution "0.0.0.0" none (fun _ => true)).2.2.1 8000
      "http://0.0.0.0:8000" rfl rfl).2⟩

/-- C9: in dev mode a source path starting with `http` resolves to that
exact remote URL with no filesystem dependence; otherwise the entry document
`index.tauri.html` is looked up inside the configured directory — missing is
fatal before the webview is built, present yields its exact contents
inline. -/
theorem C9_dev_resolution (dev_path : String) (fs : String → Option String) :
    (strStartsWith dev_path "http" = true →
      setup_content_dev dev_path fs = .ok (.url dev_path)
      ∧ ∀ fs' : String → Option String,
          setup_content_dev dev_path fs = setup_content_dev dev_path fs')
    ∧ (strStartsWith dev_path "http" = false →
      pathJoin dev_path "index.tauri.html" = dev_path ++ "/" ++ "index.tauri.html"
      ∧ (fs (pathJoin dev_path "index.tauri.html") = none →
          setup_content_dev dev_path fs = .error (devMissingMsg dev_path)
          ∧ run_dev dev_path fs = (false, some (devMissingMsg dev_path)))
      ∧ (∀ contents : String,
          fs (pathJoin dev_path "index.tauri.html") = some contents →
          setup_content_dev dev_path fs = .ok (.html contents))) := by
  constructor
  · intro hsw
    refine ⟨?_, ?_⟩
    · simp [setup_content_dev, hsw]
    · intro fs'
      simp [setup_content_dev, hsw]
  · intro hsw
    have hj : pathJoin dev_path "index.tauri.html"
        = dev_path ++ "/" ++ "index.tauri.html" := by
      have h : strStartsWith "index.tauri.html" "/" = false := by decide
      simp [pathJoin, h]
    refine ⟨hj, ?_, ?_⟩
    · intro hmiss
      have h : setup_content_dev dev_path fs = .error (devMissingMsg dev_path) := by
        simp [setup_content_dev, hsw, hmiss]
      exact ⟨h, by simp [run_dev, h]⟩
    · intro contents hhit
      simp [setup_content_dev, hsw, hhit]

/-- The filesystem for the C9 witness: only the dev directory's entry
document exists. -/
def devFs : String → Option String :=
  fun p => if p = "../dist/index.tauri.html" then some "<html>app</html>" else none

/-- Witness for C9: a remote dev path, a missing entry document, and a
present entry document, at concrete inputs. -/
theorem C9_dev_resolution_witness :
    setup_content_dev "http://localhost:4000" devFs
      = .ok (.url "http://localhost:4000")
    ∧ run_dev "../missing" devFs = (false, some (devMissingMsg "../missing"))
    ∧ setup_content_dev "../dist" devFs = .ok (.html "<html>app</html>") :=
  ⟨((C9_dev_resolution "http://localhost:4000" devFs).1 (by decide)).1,
   (((C9_dev_resolution "../missing" devFs).2 (by decide)).2.1 (by decide)).2,
   ((C9_dev_resolution "../dist" devFs).2 (by decide)).2.2 "<html>app</html>"
      (by decide)⟩

end Tauri
